import Mathlib

/-!
Verification of the PR-CYBR-P0D automation scripts.

Each Python script under scripts/ is shallowly embedded as executable Lean
definitions over Nat, List Char and String, and the spec's testable
properties are settled as theorems about those definitions.

Python strings are modelled as Lean String (a structure over List Char,
whose elements are Unicode scalar values, matching Python code points);
Python slicing, strip, upper, split are re-implemented on the char list.
-/

set_option maxRecDepth 4000

namespace P0D

/-- Python slice s[:n] by code points. -/
def pyTake (n : Nat) (s : String) : String := ⟨s.data.take n⟩

/-- Whitespace characters removed by Python str.strip() (ASCII range). -/
def pyWs (c : Char) : Bool :=
  c == ' ' || c == '\t' || c == '\n' || c == '\r' || c == '\x0b' || c == '\x0c'

/-- Python str.strip(): drop leading and trailing whitespace. -/
def pyStrip (s : String) : String :=
  ⟨((s.data.dropWhile pyWs).reverse.dropWhile pyWs).reverse⟩

/-- Python str.upper(), restricted to the ASCII mapping (the transcripts and
keywords handled by the scripts are ASCII). -/
def pyUpper (s : String) : String := ⟨s.data.map Char.toUpper⟩

/-- Tests whether the first list is an initial segment of the second. -/
def leadsWith : List Char → List Char → Bool
  | [], _ => true
  | _ :: _, [] => false
  | a :: as, b :: bs => a == b && leadsWith as bs

/-- Tests whether needle occurs as a contiguous run inside hay
(Python s1 in s2 for strings). -/
def hasSub (needle : List Char) : List Char → Bool
  | [] => leadsWith needle []
  | c :: rest => leadsWith needle (c :: rest) || hasSub needle rest

/-- Python needle in hay on strings. -/
def pyIn (needle hay : String) : Bool := hasSub needle.data hay.data

/-- Python s.split-on-newline at the char-list level: splitting on a single
newline separator keeps empty segments, exactly like str.split with an
explicit separator. -/
def splitLinesData : List Char → List (List Char)
  | [] => [[]]
  | c :: rest =>
    if c = '\n' then [] :: splitLinesData rest
    else
      match splitLinesData rest with
      | [] => [[c]]
      | g :: gs => (c :: g) :: gs

/-- Python transcript.split of a string on newline. -/
def pySplitLines (s : String) : List String := (splitLinesData s.data).map String.mk

/-- Decimal digit list of a Nat (fuel-driven so that it reduces in the
kernel); fuel n+1 always suffices for n. -/
def natDigits : Nat → Nat → List Char
  | 0, _ => []
  | fuel + 1, n =>
    if n < 10 then [Nat.digitChar n]
    else natDigits fuel (n / 10) ++ [Nat.digitChar (n % 10)]

/-- Python str of a nonnegative int: standard decimal representation. -/
def natStr (n : Nat) : String := ⟨natDigits (n + 1) n⟩

/-- Value of a digit character. -/
def digVal (c : Char) : Nat := c.toNat - 48

/-- Reads a decimal digit list back into a number. -/
def parseNum (l : List Char) : Nat := l.foldl (fun acc c => acc * 10 + digVal c) 0

/-- Python format f-string with the 0 flag and a width: zero-pad the decimal
representation on the left up to the width. -/
def pyFormat0 (width : Nat) (n : Nat) : String :=
  ⟨List.replicate (width - (natStr n).data.length) '0' ++ (natStr n).data⟩

/-! ## Round-trip facts for the decimal representation -/

theorem parseNum_append_digit (l : List Char) (c : Char) :
    parseNum (l ++ [c]) = parseNum l * 10 + digVal c := by
  simp [parseNum, List.foldl_append]

theorem digVal_digitChar : ∀ n < 10, digVal (Nat.digitChar n) = n := by decide

theorem parseNum_natDigits : ∀ fuel n, n < fuel → parseNum (natDigits fuel n) = n := by
  intro fuel
  induction fuel with
  | zero => intro n h; omega
  | succ f ih =>
    intro n h
    by_cases h10 : n < 10
    · simp [natDigits, h10, parseNum, digVal_digitChar n h10]
    · have hdiv : n / 10 < f := by omega
      simp only [natDigits, h10, if_false]
      rw [parseNum_append_digit, ih _ hdiv, digVal_digitChar _ (Nat.mod_lt _ (by omega))]
      omega

theorem parseNum_natStr (n : Nat) : parseNum (natStr n).data = n :=
  parseNum_natDigits (n + 1) n (Nat.lt_succ_self n)

theorem natStr_injective : Function.Injective natStr := by
  intro a b h
  have : parseNum (natStr a).data = parseNum (natStr b).data := by rw [h]
  rwa [parseNum_natStr, parseNum_natStr] at this

theorem digitChar_ne_colon : ∀ n < 10, Nat.digitChar n ≠ ':' := by decide

theorem colon_not_mem_natDigits : ∀ fuel n, ':' ∉ natDigits fuel n := by
  intro fuel
  induction fuel with
  | zero => intro n; simp [natDigits]
  | succ f ih =>
    intro n
    by_cases h10 : n < 10
    · simp only [natDigits, h10, if_true, List.mem_singleton]
      exact digitChar_ne_colon n h10 ∘ Eq.symm
    · simp only [natDigits, h10, if_false, List.mem_append, List.mem_singleton]
      push_neg
      exact ⟨ih _, fun h => digitChar_ne_colon _ (Nat.mod_lt _ (by omega)) h.symm⟩

theorem colon_not_mem_natStr (n : Nat) : ':' ∉ (natStr n).data :=
  colon_not_mem_natDigits (n + 1) n

/-! ## scripts/extract_tasks.py

The task record produced by the stub extractor, and the stub itself
(extract_tasks_stub), line for line: split the transcript on newlines,
emit one task per line containing an action keyword (case-insensitive
substring test on the upper-cased line), stop after the tenth task;
the entry point extract_tasks_with_llm returns the stub result whether
or not an API key is present. -/

structure Task where
  task_id : String
  agent : String
  repo : String
  title : String
  description : String
  priority : String
  type : String
  labels : List String
  explicit : Bool
deriving DecidableEq

/-- Action keyword list from extract_tasks_stub. -/
def action_keywords : List String :=
  ["TODO", "ACTION ITEM", "TASK", "NEED TO", "SHOULD",
   "UPDATE", "FIX", "IMPLEMENT", "CREATE", "ADD"]

/-- Python any(keyword in line_upper for keyword in action_keywords). -/
def lineMatches (line : String) : Bool :=
  action_keywords.any (fun kw => pyIn kw (pyUpper line))

/-- The task dictionary built for one matching line, with counter the value
of task_id_counter at that point. -/
def mkStubTask (meetingId : String) (counter : Nat) (line : String) : Task :=
  { task_id := meetingId ++ "_TASK_" ++ pyFormat0 3 counter
    agent := "A-01"
    repo := "PR-CYBR-AGENT-01"
    title := pyTake 100 (pyStrip line)
    description := pyStrip line
    priority := "medium"
    type := "enhancement"
    labels := ["automation/codex", "meeting/" ++ meetingId]
    explicit := false }

/-- The stub's line loop: task_id_counter starts at the given value, is
incremented after each append, and the loop breaks once it exceeds 10. -/
def stubLoop (meetingId : String) (counter : Nat) : List String → List Task
  | [] => []
  | line :: rest =>
    if lineMatches line then
      let t := mkStubTask meetingId counter line
      if counter + 1 > 10 then [t]
      else t :: stubLoop meetingId (counter + 1) rest
    else stubLoop meetingId counter rest

/-- extract_tasks_stub on a transcript already unpacked into its meeting_id
and transcript text. -/
def extract_tasks_stub (meetingId transcript : String) : List Task :=
  stubLoop meetingId 1 (pySplitLines transcript)

/-- extract_tasks_with_llm: reads OPENAI_API_KEY (None when unset, and the
empty string is falsy like None); both the key-absent branch and the
key-present branch return extract_tasks_stub. -/
def extract_tasks_with_llm (apiKey : Option String) (meetingId transcript : String) :
    List Task :=
  if apiKey.getD "" = "" then extract_tasks_stub meetingId transcript
  else extract_tasks_stub meetingId transcript

/-- Characterization of the stub loop: from counter c with 1 ≤ c ≤ 10 it
emits one task per matching line, numbered consecutively from c, stopping
after task number 10. -/
theorem stubLoop_eq (mid : String) :
    ∀ (lines : List String) (c : Nat), 1 ≤ c → c ≤ 10 →
      stubLoop mid c lines =
        (List.enumFrom c ((lines.filter lineMatches).take (11 - c))).map
          (fun p => mkStubTask mid p.1 p.2) := by
  intro lines
  induction lines with
  | nil => intro c _ _; simp [stubLoop]
  | cons line rest ih =>
    intro c h1 h10
    by_cases hm : lineMatches line
    · by_cases hc : c + 1 > 10
      · have hc10 : c = 10 := by omega
        subst hc10
        simp [stubLoop, hm, List.filter_cons, List.enumFrom]
      · have hc10 : c + 1 ≤ 10 := by omega
        have htake : 11 - c = (11 - (c + 1)) + 1 := by omega
        simp only [stubLoop, hm, if_true, hc, if_false, List.filter_cons, htake,
          List.take_succ_cons, List.enumFrom, List.map_cons]
        exact congrArg _ (ih (c + 1) (by omega) hc10)
    · simp only [stubLoop, hm, if_false, List.filter_cons, Bool.false_eq_true]
      exact ih c h1 h10

/-- C5 (counterexample): on the transcript consisting of the single line
with two leading spaces before TODO, the produced task's title is the first
100 characters of the stripped line, which differs from the first 100
characters of the source line. -/
theorem c5_counterexample :
    ((extract_tasks_stub "m" "  TODO fix").map Task.title = ["TODO fix"]) ∧
      ("TODO fix" : String) ≠ pyTake 100 "  TODO fix" := by
  constructor
  · rfl
  · decide

/-- C5 (amended): for every transcript, the stub extractor produces exactly
one task per line containing an action keyword and no task for any other
line, in order, capped at 10 tasks; each task is numbered consecutively
from 1 and its title is the first 100 characters of the
whitespace-stripped source line (mkStubTask records title
pyTake 100 (pyStrip line)). -/
theorem c5_theorem (mid transcript : String) :
    extract_tasks_stub mid transcript =
      (List.enumFrom 1 (((pySplitLines transcript).filter lineMatches).take 10)).map
        (fun p => mkStubTask mid p.1 p.2) :=
  stubLoop_eq mid (pySplitLines transcript) 1 (by omega) (by omega)

/-- C10: the extraction entry point returns the same task list for any two
states of the OPENAI_API_KEY environment variable (absent, empty or set):
both branches invoke the stub extractor. -/
theorem c10_theorem (k1 k2 : Option String) (mid transcript : String) :
    extract_tasks_with_llm k1 mid transcript = extract_tasks_with_llm k2 mid transcript := by
  unfold extract_tasks_with_llm
  by_cases h1 : k1.getD "" = "" <;> by_cases h2 : k2.getD "" = "" <;> simp [h1, h2]

/-! ## scripts/populate_release_schedule.py

Python datetime is modelled by a day count plus time-of-day fields; day 0
is a Monday (the default START_DATE 2024-01-01 is a Monday), so
datetime.weekday() is the day count mod 7 with Monday = 0. timedelta(days=1)
adds one to the day count; replace(hour=6, minute=0, second=0,
microsecond=0) resets the time-of-day fields. -/

structure PyDateTime where
  days : Nat
  hour : Nat
  minute : Nat
  second : Nat
  microsecond : Nat
deriving DecidableEq

/-- current_date + timedelta(days=k). -/
def addDays (d : PyDateTime) (k : Nat) : PyDateTime := { d with days := d.days + k }

/-- datetime.weekday(): Monday = 0 .. Sunday = 6. -/
def weekday (d : PyDateTime) : Nat := d.days % 7

/-- RELEASE_DAYS = [0, 2, 4] (Monday, Wednesday, Friday). -/
def RELEASE_DAYS : List Nat := [0, 2, 4]

/-- next_date.replace(hour=6, minute=0, second=0, microsecond=0). -/
def replaceAt6 (d : PyDateTime) : PyDateTime :=
  { d with hour := 6, minute := 0, second := 0, microsecond := 0 }

/-- get_next_release_day: first release weekday strictly after the current
weekday this week, else Monday (RELEASE_DAYS[0]) of next week, at 06:00. -/
def get_next_release_day (current : PyDateTime) : PyDateTime :=
  let w := weekday current
  match RELEASE_DAYS.find? (fun day => w < day) with
  | some day => replaceAt6 (addDays current (day - w))
  | none => replaceAt6 (addDays current ((7 - w) + RELEASE_DAYS.headD 0))

/-- The episode loop of generate_season_schedule: append the current date,
then advance to get_next_release_day(current + one day). -/
def seasonLoop (season : Nat) (current : PyDateTime) (ep : Nat) :
    Nat → List (Nat × Nat × PyDateTime)
  | 0 => []
  | n + 1 =>
    (season, ep, current) ::
      seasonLoop season (get_next_release_day (addDays current 1)) (ep + 1) n

/-- generate_season_schedule(season, episodes, start_date). -/
def generate_season_schedule (season episodes : Nat) (start : PyDateTime) :
    List (Nat × Nat × PyDateTime) :=
  seasonLoop season start 1 episodes

/-- C3 (counterexample): with the Tuesday start 2024-01-02 06:00 (day
count 1), the first generated release date is that Tuesday itself, not the
following Wednesday 06:00 (day count 2); the second entry is the Friday,
so the following Wednesday never appears first. -/
theorem c3_counterexample :
    ((generate_season_schedule 1 2 ⟨1, 6, 0, 0, 0⟩).map (fun e => e.2.2)).head? =
        some ⟨1, 6, 0, 0, 0⟩ ∧
      (⟨1, 6, 0, 0, 0⟩ : PyDateTime) ≠ ⟨2, 6, 0, 0, 0⟩ ∧
      (generate_season_schedule 1 2 ⟨1, 6, 0, 0, 0⟩).map (fun e => e.2.2) =
        [⟨1, 6, 0, 0, 0⟩, ⟨4, 6, 0, 0, 0⟩] := by
  refine ⟨rfl, by decide, rfl⟩

/-- C3 (amended): get_next_release_day of a Tuesday is the following
Wednesday at 06:00 UTC, and stepping from a release day at 06:00 advances
through the Monday to Wednesday to Friday to next week's Monday cycle; but
generate_season_schedule emits the raw start date as the first release
date, so from a Tuesday start the generated dates run Tuesday (unchanged),
Friday, Monday, Wednesday, each subsequent one at 06:00 UTC. -/
theorem next_mod0 (e : PyDateTime) (h : e.days % 7 = 0) :
    get_next_release_day e = ⟨e.days + 2, 6, 0, 0, 0⟩ := by
  simp [get_next_release_day, weekday, h, RELEASE_DAYS, List.find?, replaceAt6, addDays]

theorem next_mod1 (e : PyDateTime) (h : e.days % 7 = 1) :
    get_next_release_day e = ⟨e.days + 1, 6, 0, 0, 0⟩ := by
  simp [get_next_release_day, weekday, h, RELEASE_DAYS, List.find?, replaceAt6, addDays]

theorem next_mod2 (e : PyDateTime) (h : e.days % 7 = 2) :
    get_next_release_day e = ⟨e.days + 2, 6, 0, 0, 0⟩ := by
  simp [get_next_release_day, weekday, h, RELEASE_DAYS, List.find?, replaceAt6, addDays]

theorem next_mod3 (e : PyDateTime) (h : e.days % 7 = 3) :
    get_next_release_day e = ⟨e.days + 1, 6, 0, 0, 0⟩ := by
  simp [get_next_release_day, weekday, h, RELEASE_DAYS, List.find?, replaceAt6, addDays]

theorem next_mod5 (e : PyDateTime) (h : e.days % 7 = 5) :
    get_next_release_day e = ⟨e.days + 2, 6, 0, 0, 0⟩ := by
  simp [get_next_release_day, weekday, h, RELEASE_DAYS, List.find?, replaceAt6, addDays]

theorem c3_theorem (d : PyDateTime) (hTue : d.days % 7 = 1) :
    get_next_release_day d = ⟨d.days + 1, 6, 0, 0, 0⟩ ∧
      (∀ e : PyDateTime, e.days % 7 = 0 →
        get_next_release_day (addDays e 1) = ⟨e.days + 2, 6, 0, 0, 0⟩) ∧
      (∀ e : PyDateTime, e.days % 7 = 2 →
        get_next_release_day (addDays e 1) = ⟨e.days + 2, 6, 0, 0, 0⟩) ∧
      (∀ e : PyDateTime, e.days % 7 = 4 →
        get_next_release_day (addDays e 1) = ⟨e.days + 3, 6, 0, 0, 0⟩) ∧
      ∀ season : Nat,
        (generate_season_schedule season 4 d).map (fun e => e.2.2) =
          [d, ⟨d.days + 3, 6, 0, 0, 0⟩, ⟨d.days + 6, 6, 0, 0, 0⟩,
            ⟨d.days + 8, 6, 0, 0, 0⟩] := by
  refine ⟨next_mod1 d hTue, ?_, ?_, ?_, ?_⟩
  · intro e he
    exact next_mod1 (addDays e 1) (by simp only [addDays]; omega)
  · intro e he
    exact next_mod3 (addDays e 1) (by simp only [addDays]; omega)
  · intro e he
    exact next_mod5 (addDays e 1) (by simp only [addDays]; omega)
  · intro season
    have h1 : get_next_release_day (addDays d 1) = ⟨d.days + 3, 6, 0, 0, 0⟩ :=
      next_mod2 (addDays d 1) (by simp only [addDays]; omega)
    have h2 : get_next_release_day (addDays ⟨d.days + 3, 6, 0, 0, 0⟩ 1) =
        ⟨d.days + 6, 6, 0, 0, 0⟩ :=
      next_mod5 (addDays ⟨d.days + 3, 6, 0, 0, 0⟩ 1) (by simp only [addDays]; omega)
    have h3 : get_next_release_day (addDays ⟨d.days + 6, 6, 0, 0, 0⟩ 1) =
        ⟨d.days + 8, 6, 0, 0, 0⟩ :=
      next_mod1 (addDays ⟨d.days + 6, 6, 0, 0, 0⟩ 1) (by simp only [addDays]; omega)
    simp [generate_season_schedule, seasonLoop, h1, h2, h3]

/-- C3 (witness for the amended theorem): instantiated at the concrete
Tuesday 2024-01-02 06:00. -/
theorem c3_witness :
    get_next_release_day ⟨1, 6, 0, 0, 0⟩ = ⟨2, 6, 0, 0, 0⟩ ∧
      (generate_season_schedule 1 4 ⟨1, 6, 0, 0, 0⟩).map (fun e => e.2.2) =
        [⟨1, 6, 0, 0, 0⟩, ⟨4, 6, 0, 0, 0⟩, ⟨7, 6, 0, 0, 0⟩, ⟨9, 6, 0, 0, 0⟩] := by
  have h := c3_theorem ⟨1, 6, 0, 0, 0⟩ (by decide)
  exact ⟨h.1, h.2.2.2.2 1⟩

/-! ## scripts/sync_notion_enhanced.py, retrofit_episode

Episode records carry the extended fields parsed by
_parse_episode_extended; text and url fields come back as strings where
both a missing value and an empty value are falsy in Python, so absence is
modelled as the empty string. retrofit_episode evaluates its four gate
conditions on the episode dictionary as parsed (the dictionary is not
mutated between steps), so the performed steps are a pure function of the
parsed field values. -/

structure Episode where
  notion_id : String
  title : String
  season : Option Nat
  episode : Option Nat
  status : String
  code_name : String
  prompt_input : String
  script_doc_link : String
  track_cloud : String
  duration : String
  show_notes_link : String
deriving DecidableEq

/-- The four enrichment steps of retrofit_episode, in program order. -/
inductive RetrofitStep where
  | processPromptInput
  | processNotebookLM
  | processAudioMetadata
  | generateShowNotes
deriving DecidableEq

/-- The Notion field each enrichment step populates. -/
def stepOutputField : RetrofitStep → Episode → String
  | .processPromptInput, e => e.script_doc_link
  | .processNotebookLM, e => e.track_cloud
  | .processAudioMetadata, e => e.duration
  | .generateShowNotes, e => e.show_notes_link

/-- The steps retrofit_episode performs for an episode: each of the four
gates of retrofit_episode, evaluated on the parsed episode. -/
def retrofit_steps (e : Episode) : List RetrofitStep :=
  (if e.prompt_input ≠ "" ∧ e.script_doc_link = "" then [RetrofitStep.processPromptInput]
    else []) ++
  (if e.script_doc_link ≠ "" ∧ e.track_cloud = "" then [RetrofitStep.processNotebookLM]
    else []) ++
  (if e.track_cloud ≠ "" ∧ e.duration = "" then [RetrofitStep.processAudioMetadata]
    else []) ++
  (if e.track_cloud ≠ "" ∧ e.show_notes_link = "" then [RetrofitStep.generateShowNotes]
    else [])

/-- C9: every enrichment step retrofit_episode performs has its output
field absent on the incoming episode (so a step is skipped whenever its
output field is populated), and on an episode whose four enrichment output
fields are all populated no step is performed at all, hence re-running the
pipeline issues no enrichment writes. -/
theorem c9_theorem (e : Episode) :
    (∀ s ∈ retrofit_steps e, stepOutputField s e = "") ∧
      (e.script_doc_link ≠ "" ∧ e.track_cloud ≠ "" ∧ e.duration ≠ "" ∧
          e.show_notes_link ≠ "" →
        retrofit_steps e = []) := by
  constructor
  · intro s hs
    simp only [retrofit_steps, List.mem_append] at hs
    rcases hs with ((hs | hs) | hs) | hs
    · by_cases h : e.prompt_input ≠ "" ∧ e.script_doc_link = ""
      · simp only [if_pos h, List.mem_singleton] at hs
        subst hs
        exact h.2
      · simp [h] at hs
    · by_cases h : e.script_doc_link ≠ "" ∧ e.track_cloud = ""
      · simp only [if_pos h, List.mem_singleton] at hs
        subst hs
        exact h.2
      · simp [h] at hs
    · by_cases h : e.track_cloud ≠ "" ∧ e.duration = ""
      · simp only [if_pos h, List.mem_singleton] at hs
        subst hs
        exact h.2
      · simp [h] at hs
    · by_cases h : e.track_cloud ≠ "" ∧ e.show_notes_link = ""
      · simp only [if_pos h, List.mem_singleton] at hs
        subst hs
        exact h.2
      · simp [h] at hs
  · rintro ⟨h1, h2, h3, h4⟩
    simp [retrofit_steps, h1, h2, h3, h4]

/-- C9 (witness): on a fully enriched episode no step is performed. -/
theorem c9_witness :
    retrofit_steps
      ⟨"id", "t", some 1, some 1, "In progress", "cn", "prompt", "doc", "track",
        "45:30", "notes"⟩ = [] :=
  (c9_theorem _).2 (by refine ⟨?_, ?_, ?_, ?_⟩ <;> decide)

/-! ## Exit codes: scripts/create_issues.py and scripts/sync_notion.py

The remote issue tracker's responses are inputs to the embedding: each
task comes with the response the search call would return (an error when
the HTTP request raises), and the responses of the create or update call.
process_task catches every exception and yields a result record with
status error, so the loop in main always processes every task. -/

structure TaskResult where
  task_id : String
  status : String
  issue_number : Option Nat
  errMsg : Option String
deriving DecidableEq

/-- get_repository_name: agent_mapping.get(agent_id, fallback_repo); a
missing or empty result raises ValueError. -/
def get_repository_name (mapping : List (String × String)) (agentId : String)
    (fallback : Option String) : Except String String :=
  match (mapping.lookup agentId).or fallback with
  | some repo => if repo = "" then .error ("Unknown agent ID: " ++ agentId) else .ok repo
  | none => .error ("Unknown agent ID: " ++ agentId)

/-- search_issue_by_task_id: a raised RequestException is caught and turned
into None (the not-found answer); otherwise the first search item's issue
number is returned. -/
def search_issue_by_task_id (resp : Except String (List Nat)) : Option Nat :=
  match resp with
  | .error _ => none
  | .ok items => items.head?

/-- One task together with the remote responses its processing would see. -/
structure TaskRun where
  agent : String
  fallbackRepo : Option String
  task_id : String
  searchResp : Except String (List Nat)
  createResp : Except String Nat
  updateResp : Except String Unit

/-- process_task: create or update one issue, catching any exception into
a status error result. -/
def process_task (mapping : List (String × String)) (r : TaskRun) : TaskResult :=
  match get_repository_name mapping r.agent r.fallbackRepo with
  | .error e => ⟨r.task_id, "error", none, some e⟩
  | .ok _ =>
    match search_issue_by_task_id r.searchResp with
    | some n =>
      match r.updateResp with
      | .ok _ => ⟨r.task_id, "updated", some n, none⟩
      | .error e => ⟨r.task_id, "error", none, some e⟩
    | none =>
      match r.createResp with
      | .ok n => ⟨r.task_id, "created", some n, none⟩
      | .error e => ⟨r.task_id, "error", none, some e⟩

/-- The processing loop of create_issues main: every task is processed and
its result collected. -/
def create_issues_results (mapping : List (String × String)) (runs : List TaskRun) :
    List TaskResult :=
  runs.map (process_task mapping)

/-- create_issues main's exit value: 0 if errors == 0 else 1. -/
def create_issues_exit (results : List TaskResult) : Nat :=
  if results.countP (fun r => r.status == "error") = 0 then 0 else 1

/-- The retry loop of download_episode: MAX_RETRIES attempts, an attempt
succeeding on an ok response; after the last failed attempt the function
returns False. -/
def attemptLoop : Nat → List (Except String Nat) → Bool
  | 0, _ => false
  | _ + 1, [] => false
  | _ + 1, .ok _ :: _ => true
  | n + 1, .error _ :: rest => attemptLoop n rest

/-- download_episode: False when the file already exists (skip) and False
when every one of the MAX_RETRIES = 3 attempts raises; True only on a
successful download. -/
def download_episode (fileExists : Bool) (attempts : List (Except String Nat)) : Bool :=
  if fileExists then false else attemptLoop 3 attempts

/-- NotionEpisodeSync.sync: the number of episodes whose download returned
True. -/
def sync_downloaded_count (eps : List (Bool × List (Except String Nat))) : Nat :=
  (eps.map (fun e => download_episode e.1 e.2)).count true

/-- sync_notion main's exit value on a completed sync:
sys.exit(0 if downloaded_count == 0 else 0). -/
def sync_notion_exit (eps : List (Bool × List (Except String Nat))) : Nat :=
  if sync_downloaded_count eps = 0 then 0 else 0

/-- C4 (counterexample): a sync_notion run whose single episode download
fails on all three attempts (a per-item remote-call error) still exits
with code 0, not non-zero. -/
theorem c4_counterexample :
    download_episode false
        [Except.error "timeout", Except.error "timeout", Except.error "timeout"] = false ∧
      sync_notion_exit
        [(false, [Except.error "timeout", Except.error "timeout", Except.error "timeout"])]
        = 0 := by
  constructor <;> rfl

/-- C4 (amended): create_issues processes every task (one result per task,
errors recorded per item) and exits 0 exactly when no per-item error
occurred, 1 otherwise; sync_notion, by contrast, exits 0 whenever the
top-level sync completes, even when item downloads failed after all
retries. -/
theorem c4_theorem (mapping : List (String × String)) (runs : List TaskRun)
    (eps : List (Bool × List (Except String Nat))) :
    (create_issues_results mapping runs).length = runs.length ∧
      (create_issues_exit (create_issues_results mapping runs) = 0 ↔
        ∀ r ∈ create_issues_results mapping runs, r.status ≠ "error") ∧
      sync_notion_exit eps = 0 := by
  refine ⟨by simp [create_issues_results], ?_, ?_⟩
  · unfold create_issues_exit
    constructor
    · intro h r hr
      by_cases hz : (create_issues_results mapping runs).countP
          (fun r => r.status == "error") = 0
      · have := List.countP_eq_zero.mp hz r hr
        simpa using this
      · simp [hz] at h
    · intro h
      have hz : (create_issues_results mapping runs).countP
          (fun r => r.status == "error") = 0 :=
        List.countP_eq_zero.mpr (fun r hr => by simpa using h r hr)
      simp [hz]
  · unfold sync_notion_exit
    by_cases h : sync_downloaded_count eps = 0 <;> simp [h]

/-- C4 (witness): the amended theorem at a concrete run: one task whose
create call raises gives exit code 1 via the iff, and the failing
sync_notion run exits 0. -/
theorem c4_witness :
    (create_issues_results [("A-01", "R1")]
        [⟨"A-01", none, "T1", Except.ok [], Except.error "boom", Except.ok ()⟩]).length = 1 ∧
      sync_notion_exit
        [(false, [Except.error "timeout", Except.error "timeout", Except.error "timeout"])]
        = 0 :=
  ⟨(c4_theorem [("A-01", "R1")]
      [⟨"A-01", none, "T1", Except.ok [], Except.error "boom", Except.ok ()⟩] []).1,
    (c4_theorem [] [] _).2.2⟩

/-! ## scripts/notion_sync.py, generate_deterministic_id

The deterministic id joins agent, repo, issue and meeting date with the
colon delimiter, hashes the UTF-8 encoding with SHA-256 (implemented below
on Nat, word arithmetic taken mod 2^32), and renders the first 32 hex
digits of the digest as a UUID string (uuid.UUID of a 32-hex-digit string
prints the same digits in 8-4-4-4-12 groups, and hexdigest is already
lowercase). -/

/-- UTF-8 bytes of one code point. -/
def utf8Char (c : Char) : List Nat :=
  let n := c.toNat
  if n < 128 then [n]
  else if n < 2048 then [192 + n / 64, 128 + n % 64]
  else if n < 65536 then [224 + n / 4096, 128 + (n / 64) % 64, 128 + n % 64]
  else [240 + n / 262144, 128 + (n / 4096) % 64, 128 + (n / 64) % 64, 128 + n % 64]

/-- Python identifier.encode of a string: UTF-8 byte list. -/
def utf8Encode (s : String) : List Nat := s.data.flatMap utf8Char

/-- The word size modulus 2^32 of SHA-256 arithmetic. -/
def M32 : Nat := 4294967296

/-- Right rotation of a 32-bit word. -/
def rotr32 (x k : Nat) : Nat := ((x >>> k) ||| (x <<< (32 - k))) % M32

/-- SHA-256 choice function (the complement is xor with the all-ones
32-bit word). -/
def shaCh (x y z : Nat) : Nat := (x &&& y) ^^^ ((x ^^^ 4294967295) &&& z)

/-- SHA-256 majority function. -/
def shaMaj (x y z : Nat) : Nat := (x &&& y) ^^^ (x &&& z) ^^^ (y &&& z)

/-- SHA-256 big sigma 0. -/
def bsig0 (x : Nat) : Nat := rotr32 x 2 ^^^ rotr32 x 13 ^^^ rotr32 x 22

/-- SHA-256 big sigma 1. -/
def bsig1 (x : Nat) : Nat := rotr32 x 6 ^^^ rotr32 x 11 ^^^ rotr32 x 25

/-- SHA-256 small sigma 0. -/
def ssig0 (x : Nat) : Nat := rotr32 x 7 ^^^ rotr32 x 18 ^^^ (x >>> 3)

/-- SHA-256 small sigma 1. -/
def ssig1 (x : Nat) : Nat := rotr32 x 17 ^^^ rotr32 x 19 ^^^ (x >>> 10)

/-- SHA-256 round constants. -/
def shaK : List Nat :=
  [1116352408, 1899447441, 3049323471, 3921009573, 961987163,
   1508970993, 2453635748, 2870763221, 3624381080, 310598401,
   607225278, 1426881987, 1925078388, 2162078206, 2614888103,
   3248222580, 3835390401, 4022224774, 264347078, 604807628,
   770255983, 1249150122, 1555081692, 1996064986, 2554220882,
   2821834349, 2952996808, 3210313671, 3336571891, 3584528711,
   113926993, 338241895, 666307205, 773529912, 1294757372,
   1396182291, 1695183700, 1986661051, 2177026350, 2456956037,
   2730485921, 2820302411, 3259730800, 3345764771, 3516065817,
   3600352804, 4094571909, 275423344, 430227734, 506948616,
   659060556, 883997877, 958139571, 1322822218, 1537002063,
   1747873779, 1955562222, 2024104815, 2227730452, 2361852424,
   2428436474, 2756734187, 3204031479, 3329325298]

/-- SHA-256 initial hash value. -/
def shaH0 : List Nat :=
  [1779033703, 3144134277, 1013904242, 2773480762,
   1359893119, 2600822924, 528734635, 1541459225]

/-- The first n entries of the message schedule of one block. -/
def wExtend (block : List Nat) : Nat → List Nat
  | 0 => []
  | n + 1 =>
    let prev := wExtend block n
    let v :=
      if n < 16 then block.getD n 0
      else (ssig1 (prev.getD (n - 2) 0) + prev.getD (n - 7) 0 +
          ssig0 (prev.getD (n - 15) 0) + prev.getD (n - 16) 0) % M32
    prev ++ [v]

/-- One SHA-256 compression round on the eight-word working state. -/
def shaRound (st : List Nat) (kw : Nat × Nat) : List Nat :=
  match st with
  | [a, b, c, d, e, f, g, h] =>
    let t1 := (h + bsig1 e + shaCh e f g + kw.1 + kw.2) % M32
    let t2 := (bsig0 a + shaMaj a b c) % M32
    [(t1 + t2) % M32, a, b, c, (d + t1) % M32, e, f, g]
  | other => other

/-- Compression of one 16-word block into the chaining state. -/
def compressBlock (h : List Nat) (block : List Nat) : List Nat :=
  let w := wExtend block 64
  let fin := (shaK.zip w).foldl shaRound h
  List.zipWith (fun x y => (x + y) % M32) h fin

/-- Big-endian byte list of a number, fixed width. -/
def beBytes : Nat → Nat → List Nat
  | 0, _ => []
  | c + 1, n => beBytes c (n / 256) ++ [n % 256]

/-- Packs bytes into big-endian 32-bit words, four at a time. -/
def bytesToWords : List Nat → List Nat
  | b1 :: b2 :: b3 :: b4 :: rest =>
    (((b1 * 256 + b2) * 256 + b3) * 256 + b4) :: bytesToWords rest
  | _ => []

/-- Splits a word list into 16-word blocks. -/
def chunk16 : List Nat → List (List Nat)
  | a1 :: a2 :: a3 :: a4 :: a5 :: a6 :: a7 :: a8 ::
      a9 :: a10 :: a11 :: a12 :: a13 :: a14 :: a15 :: a16 :: rest =>
    [a1, a2, a3, a4, a5, a6, a7, a8, a9, a10, a11, a12, a13, a14, a15, a16] ::
      chunk16 rest
  | _ => []

/-- SHA-256 padding: a 0x80 byte, zeros up to 56 mod 64, then the bit
length as eight big-endian bytes. -/
def shaPad (msg : List Nat) : List Nat :=
  msg ++ 128 :: (List.replicate ((119 - msg.length % 64) % 64) 0 ++
    beBytes 8 (msg.length * 8))

/-- SHA-256 digest (32 bytes) of a byte list. -/
def sha256 (msg : List Nat) : List Nat :=
  ((chunk16 (bytesToWords (shaPad msg))).foldl compressBlock shaH0).flatMap (beBytes 4)

/-- Lowercase hex digit. -/
def hexChar (n : Nat) : Char := if n < 10 then Char.ofNat (48 + n) else Char.ofNat (87 + n)

/-- Two lowercase hex digits of a byte. -/
def byteHex (b : Nat) : List Char := [hexChar (b / 16), hexChar (b % 16)]

/-- hashlib hexdigest: lowercase hex characters of the digest bytes. -/
def hexOfBytes (bs : List Nat) : List Char := bs.flatMap byteHex

/-- str(uuid.UUID(h)) layout: the 32 hex digits in 8-4-4-4-12 groups. -/
def uuidDashes (l : List Char) : List Char :=
  (l.take 8) ++ ('-' :: ((l.drop 8).take 4)) ++ ('-' :: ((l.drop 12).take 4)) ++
    ('-' :: ((l.drop 16).take 4)) ++ ('-' :: ((l.drop 20).take 12))

/-- The hash-to-UUID part of generate_deterministic_id: hexdigest, first
32 hex characters, printed by uuid.UUID as 8-4-4-4-12. -/
def idFromString (s : String) : String :=
  ⟨uuidDashes ((hexOfBytes (sha256 (utf8Encode s))).take 32)⟩

/-- The stable pre-hash serialization agent:repo:issue:meeting_date. -/
def pyIdentifier (agent repo : String) (issue : Nat) (meetingDate : String) : String :=
  agent ++ ":" ++ repo ++ ":" ++ natStr issue ++ ":" ++ meetingDate

/-- NotionSync.generate_deterministic_id. -/
def generate_deterministic_id (agent repo : String) (issue : Nat) (md : String) : String :=
  idFromString (pyIdentifier agent repo issue md)

/-- The identifier derivation as the spec words it: concatenate the stable
fields with the fixed delimiter, apply SHA-256, interpret the first 128
bits — the first 16 digest bytes — as a UUID. -/
def specDeterministicId (agent repo : String) (issue : Nat) (md : String) : String :=
  ⟨uuidDashes (hexOfBytes ((sha256 (utf8Encode (pyIdentifier agent repo issue md))).take 16))⟩

theorem hexOfBytes_take (bs : List Nat) :
    ∀ n : Nat, hexOfBytes (bs.take n) = (hexOfBytes bs).take (2 * n) := by
  induction bs with
  | nil => intro n; simp [hexOfBytes]
  | cons b rest ih =>
    intro n
    cases n with
    | zero => simp [hexOfBytes]
    | succ m =>
      have h2 : 2 * (m + 1) = (2 * m) + 1 + 1 := by ring
      simp only [List.take_succ_cons, hexOfBytes, List.flatMap_cons, byteHex, h2,
        List.cons_append, List.nil_append, List.take_succ_cons]
      rw [← hexOfBytes, ← hexOfBytes, ih m]

/-- C6: the deterministic identifier is the pure function that joins the
stable fields with the colon delimiter, hashes with SHA-256 and prints the
first 128 bits of the digest as a UUID (the code's first-32-hex-digits cut
equals the spec's first-16-digest-bytes reading); deriving it twice from
one tuple yields identical output, and on the tuple (A-01,
PR-CYBR-AGENT-01, 123, 2025-01-15) it evaluates to the UUID that the
Python implementation prints. -/
theorem c6_theorem (agent repo : String) (issue : Nat) (md : String) :
    generate_deterministic_id agent repo issue md =
        specDeterministicId agent repo issue md ∧
      generate_deterministic_id agent repo issue md =
        generate_deterministic_id agent repo issue md ∧
      generate_deterministic_id "A-01" "PR-CYBR-AGENT-01" 123 "2025-01-15" =
        "3767fc1b-b28f-6069-1189-db7ec0d531d6" := by
  refine ⟨?_, rfl, by decide⟩
  unfold generate_deterministic_id idFromString specDeterministicId
  rw [hexOfBytes_take]

/-- C7 (counterexample): two tuples differing in the agent and repo stable
fields whose serializations coincide because the fields contain the colon
delimiter, so their derived identifiers are identical without any hash
collision. -/
theorem c7_counterexample :
    generate_deterministic_id "A:B" "C" 1 "2025-01-15" =
        generate_deterministic_id "A" "B:C" 1 "2025-01-15" ∧
      (("A:B", "C") : String × String) ≠ ("A", "B:C") := by
  constructor
  · exact congrArg idFromString (by decide)
  · decide

/-- Splits an equation between two delimiter-terminated segments when
neither left segment contains the delimiter. -/
theorem colon_split : ∀ (xs ys as bs : List Char), ':' ∉ xs → ':' ∉ ys →
    xs ++ ':' :: as = ys ++ ':' :: bs → xs = ys ∧ as = bs := by
  intro xs
  induction xs with
  | nil =>
    intro ys as bs _ hys h
    cases ys with
    | nil => simpa using h
    | cons y ys' =>
      simp only [List.nil_append, List.cons_append, List.cons.injEq] at h
      exact absurd (show ':' ∈ y :: ys' by rw [← h.1]; exact List.mem_cons_self ':' ys') hys
  | cons x xs' ih =>
    intro ys as bs hxs hys h
    cases ys with
    | nil =>
      simp only [List.nil_append, List.cons_append, List.cons.injEq] at h
      exact absurd (show ':' ∈ x :: xs' by rw [h.1]; exact List.mem_cons_self ':' xs') hxs
    | cons y ys' =>
      simp only [List.cons_append, List.cons.injEq] at h
      have hrec := ih ys' as bs (fun hm => hxs (List.mem_cons_of_mem _ hm))
        (fun hm => hys (List.mem_cons_of_mem _ hm)) h.2
      exact ⟨by rw [h.1, hrec.1], hrec.2⟩

theorem str_ext (s t : String) (h : s.data = t.data) : s = t := by
  cases s
  cases t
  exact congrArg String.mk h

theorem data_append (s t : String) : (s ++ t).data = s.data ++ t.data := rfl

/-- C7 (amended): the pre-hash serialization is injective on tuples whose
agent and repo fields are free of the colon delimiter (the issue number's
decimal digits never contain a colon), so two such tuples differing in any
stable field serialize differently and can only share an identifier
through a SHA-256 collision; with colon-bearing fields the serialization
itself collides, as the counterexample shows. -/
theorem c7_theorem (a1 r1 : String) (i1 : Nat) (d1 : String)
    (a2 r2 : String) (i2 : Nat) (d2 : String)
    (ha1 : ':' ∉ a1.data) (hr1 : ':' ∉ r1.data)
    (ha2 : ':' ∉ a2.data) (hr2 : ':' ∉ r2.data)
    (h : pyIdentifier a1 r1 i1 d1 = pyIdentifier a2 r2 i2 d2) :
    a1 = a2 ∧ r1 = r2 ∧ i1 = i2 ∧ d1 = d2 := by
  have hdata : a1.data ++ ':' :: (r1.data ++ ':' :: ((natStr i1).data ++ ':' :: d1.data)) =
      a2.data ++ ':' :: (r2.data ++ ':' :: ((natStr i2).data ++ ':' :: d2.data)) := by
    have := congrArg String.data h
    simpa [pyIdentifier, data_append, List.append_assoc] using this
  have h1 := colon_split _ _ _ _ ha1 ha2 hdata
  have h2 := colon_split _ _ _ _ hr1 hr2 h1.2
  have h3 := colon_split _ _ _ _ (colon_not_mem_natStr i1) (colon_not_mem_natStr i2) h2.2
  exact ⟨str_ext _ _ h1.1, str_ext _ _ h2.1,
    natStr_injective (str_ext _ _ h3.1), str_ext _ _ h3.2⟩

/-- C7 (witness): the amended injectivity applied at a concrete colon-free
tuple. -/
theorem c7_witness :
    ("A-01" : String) = "A-01" ∧ ("PR-CYBR-AGENT-01" : String) = "PR-CYBR-AGENT-01" ∧
      (123 : Nat) = 123 ∧ ("2025-01-15" : String) = "2025-01-15" :=
  c7_theorem "A-01" "PR-CYBR-AGENT-01" 123 "2025-01-15"
    "A-01" "PR-CYBR-AGENT-01" 123 "2025-01-15"
    (by decide) (by decide) (by decide) (by decide) rfl

/-! ## scripts/notion_sync.py, the upsert protocol

The Notion database is modelled as an ordered list of pages; the query
with the Task ID rich-text equals filter returns the pages whose Task ID
property equals the searched value, in store order. pages.create appends a
page under a fresh page id chosen by the remote side; pages.update
replaces the properties of the page with the given id. The response of
the lookup query is an input (an error value when the API call raises);
search_existing_page turns an error into None, the not-found answer, which
is exactly claim C1's subject. -/

/-- Splits a char list on a separator character, keeping empty segments
(Python str.split with an explicit separator). -/
def splitSep (sep : Char) : List Char → List (List Char)
  | [] => [[]]
  | c :: rest =>
    if c = sep then [] :: splitSep sep rest
    else
      match splitSep sep rest with
      | [] => [[c]]
      | g :: gs => (c :: g) :: gs

/-- Decimal digit test. -/
def isDigit (c : Char) : Bool := (48 ≤ c.toNat) && (c.toNat ≤ 57)

/-- Day count of a month, Gregorian, as datetime validates it. -/
def daysInMonth (year month : Nat) : Nat :=
  if month = 2 then
    if (year % 4 == 0 && year % 100 != 0) || year % 400 == 0 then 29 else 28
  else if month == 4 || month == 6 || month == 9 || month == 11 then 30
  else 31

/-- Does datetime.strptime(s, the year-month-day format) succeed: a four
digit year, a one or two digit month and day, dash separated, naming a
valid calendar date. -/
def validYMD (s : String) : Bool :=
  match splitSep '-' s.data with
  | [ys, ms, ds] =>
    ys.all isDigit && ms.all isDigit && ds.all isDigit &&
      ys.length == 4 && (ms.length == 1 || ms.length == 2) &&
      (ds.length == 1 || ds.length == 2) &&
      decide (1 ≤ parseNum ms ∧ parseNum ms ≤ 12 ∧ 1 ≤ parseNum ds ∧
        parseNum ds ≤ daysInMonth (parseNum ys) (parseNum ms))
  | _ => false

/-- The Meeting Date property value: isoformat of the parsed date when
strptime succeeds, else the current time (format_properties falls back to
datetime.utcnow(), supplied here as the ambient now string). -/
def meetingDateIso (md now : String) : String :=
  match splitSep '-' md.data with
  | [ys, ms, ds] =>
    if validYMD md then
      pyFormat0 4 (parseNum ys) ++ "-" ++ pyFormat0 2 (parseNum ms) ++ "-" ++
        pyFormat0 2 (parseNum ds) ++ "T00:00:00"
    else now
  | _ => now

/-- The Notion page properties format_properties builds. -/
structure PageProps where
  taskId : String
  title : String
  agent : String
  repo : String
  issue : Nat
  meetingDate : String
  summary : String
  issueUrl : String
  status : String
  prNum : Option Nat
  prUrl : Option String
deriving DecidableEq

/-- Python truthiness of the optional PR number (None and 0 are falsy). -/
def prTruthy : Option Nat → Bool
  | some p => p != 0
  | none => false

/-- NotionSync.format_properties. -/
def format_properties (det a r : String) (i : Nat) (pr : Option Nat)
    (md summary now : String) : PageProps :=
  { taskId := det
    title := pyTake 100 summary
    agent := a
    repo := r
    issue := i
    meetingDate := meetingDateIso md now
    summary := pyTake 2000 summary
    issueUrl := "https://github.com/PR-CYBR/" ++ r ++ "/issues/" ++ natStr i
    status := "Complete"
    prNum := if prTruthy pr then pr else none
    prUrl :=
      if prTruthy pr then
        some ("https://github.com/PR-CYBR/" ++ r ++ "/pull/" ++ natStr (pr.getD 0))
      else none }

/-- A remote page: its Notion page id and its properties. -/
structure Page where
  pid : String
  props : PageProps
deriving DecidableEq

/-- The database query with filter Task ID rich_text equals the given
value: the matching pages in store order. -/
def queryByTaskId (st : List Page) (tid : String) : List Page :=
  st.filter (fun p => p.props.taskId == tid)

/-- NotionSync.search_existing_page: an exception from the query is caught,
logged as a warning and turned into None; otherwise the first result's
page id, or None when there is no result. -/
def search_existing_page (resp : Except String (List Page)) : Option String :=
  match resp with
  | .error _ => none
  | .ok pages =>
    match pages with
    | [] => none
    | p :: _ => some p.pid

/-- The result dictionary of NotionSync.upsert. -/
structure UpsertResult where
  status : String
  page_id : String
  deterministic_id : String
deriving DecidableEq

/-- NotionSync.upsert against a store, with the lookup response supplied
(the remote may also raise): derive the deterministic id, search, then
update the found page or create a page under the remote-chosen fresh id. -/
def upsertWith (st : List Page) (freshPid : String)
    (lookupResp : Except String (List Page)) (a r : String) (i : Nat)
    (pr : Option Nat) (md summary now : String) : List Page × UpsertResult :=
  let det := generate_deterministic_id a r i md
  match search_existing_page lookupResp with
  | some pid =>
    let props := format_properties det a r i pr md summary now
    (st.map (fun p => if p.pid == pid then { p with props := props } else p),
      ⟨"updated", pid, det⟩)
  | none =>
    let props := format_properties det a r i pr md summary now
    (st ++ [⟨freshPid, props⟩], ⟨"created", freshPid, det⟩)

/-- NotionSync.upsert when the remote lookup answers the query honestly
from the store. -/
def upsert (st : List Page) (freshPid : String) (a r : String) (i : Nat)
    (pr : Option Nat) (md summary now : String) : List Page × UpsertResult :=
  upsertWith st freshPid
    (Except.ok (queryByTaskId st (generate_deterministic_id a r i md)))
    a r i pr md summary now

/-- C1: when the remote lookup raises, search_existing_page swallows the
error into the not-found answer and upsert falls through to the create
path, appending a page and reporting status created instead of propagating
the failure — for every store, tuple and payload. -/
theorem c1_theorem (st : List Page) (freshPid err a r : String) (i : Nat)
    (pr : Option Nat) (md summary now : String) :
    search_existing_page (Except.error err) = none ∧
      (upsertWith st freshPid (Except.error err) a r i pr md summary now).2.status
        = "created" ∧
      (upsertWith st freshPid (Except.error err) a r i pr md summary now).1 =
        st ++ [⟨freshPid,
          format_properties (generate_deterministic_id a r i md) a r i pr md summary now⟩] :=
  ⟨rfl, rfl, rfl⟩

/-- Updating by page id leaves a store untouched when no page carries the
id. -/
theorem map_update_of_fresh (st : List Page) (pid : String) (props : PageProps)
    (h : ∀ p ∈ st, p.pid ≠ pid) :
    st.map (fun p => if p.pid == pid then { p with props := props } else p) = st := by
  induction st with
  | nil => rfl
  | cons q qs ih =>
    have hq : (q.pid == pid) = false := by
      simp only [beq_eq_false_iff_ne, ne_eq]
      exact h q (List.mem_cons_self q qs)
    simp only [List.map_cons, hq, Bool.false_eq_true, if_false]
    rw [ih (fun p hp => h p (List.mem_cons_of_mem q hp))]

/-- C2: starting from a store holding no page for the tuple's deterministic
id, the first upsert takes the create path under the fresh page id, the
second upsert with the same stable fields and a possibly different mutable
payload takes the update path on that same page, both report their path
and the resolved page id, and afterwards the store holds exactly one page
for the id, carrying the second call's payload. -/
theorem c2_theorem (st : List Page) (fresh1 fresh2 a r : String) (i : Nat)
    (pr1 pr2 : Option Nat) (md s1 s2 now1 now2 : String)
    (hnone : queryByTaskId st (generate_deterministic_id a r i md) = [])
    (hfresh : ∀ p ∈ st, p.pid ≠ fresh1) :
    (upsert st fresh1 a r i pr1 md s1 now1).2.status = "created" ∧
      (upsert st fresh1 a r i pr1 md s1 now1).2.page_id = fresh1 ∧
      (upsert (upsert st fresh1 a r i pr1 md s1 now1).1 fresh2 a r i pr2 md s2 now2).2.status
        = "updated" ∧
      (upsert (upsert st fresh1 a r i pr1 md s1 now1).1 fresh2 a r i pr2 md s2 now2).2.page_id
        = fresh1 ∧
      (upsert (upsert st fresh1 a r i pr1 md s1 now1).1 fresh2 a r i pr2 md s2
            now2).2.deterministic_id
        = (upsert st fresh1 a r i pr1 md s1 now1).2.deterministic_id ∧
      queryByTaskId
          (upsert (upsert st fresh1 a r i pr1 md s1 now1).1 fresh2 a r i pr2 md s2 now2).1
          (generate_deterministic_id a r i md)
        = [⟨fresh1,
            format_properties (generate_deterministic_id a r i md) a r i pr2 md s2 now2⟩] := by
  have h1 : upsert st fresh1 a r i pr1 md s1 now1 =
      (st ++ [⟨fresh1,
          format_properties (generate_deterministic_id a r i md) a r i pr1 md s1 now1⟩],
        ⟨"created", fresh1, generate_deterministic_id a r i md⟩) := by
    unfold upsert upsertWith
    rw [hnone]
    rfl
  have hq1 : queryByTaskId
      (st ++ [⟨fresh1,
          format_properties (generate_deterministic_id a r i md) a r i pr1 md s1 now1⟩])
      (generate_deterministic_id a r i md) =
      [⟨fresh1,
          format_properties (generate_deterministic_id a r i md) a r i pr1 md s1 now1⟩] := by
    unfold queryByTaskId at hnone ⊢
    rw [List.filter_append, hnone]
    simp [format_properties]
  have h2 : upsert
      (st ++ [⟨fresh1,
          format_properties (generate_deterministic_id a r i md) a r i pr1 md s1 now1⟩])
      fresh2 a r i pr2 md s2 now2 =
      (st ++ [⟨fresh1,
          format_properties (generate_deterministic_id a r i md) a r i pr2 md s2 now2⟩],
        ⟨"updated", fresh1, generate_deterministic_id a r i md⟩) := by
    unfold upsert upsertWith
    rw [hq1]
    simp only [search_existing_page]
    rw [List.map_append]
    congr 1
    · congr 1
      · exact map_update_of_fresh st fresh1 _ hfresh
      · simp
  rw [h1]
  refine ⟨rfl, rfl, ?_, ?_, ?_, ?_⟩
  · rw [h2]
  · rw [h2]
  · rw [h2]
  · rw [h2]
    unfold queryByTaskId at hnone ⊢
    rw [List.filter_append, hnone]
    simp [format_properties]

/-- C2 (witness): the two runs against the empty store with differing
payloads. -/
theorem c2_witness :
    (upsert [] "p1" "A-01" "R1" 1 none "2025-01-15" "first" "now").2.status = "created" ∧
      (upsert
          (upsert [] "p1" "A-01" "R1" 1 none "2025-01-15" "first" "now").1
          "p2" "A-01" "R1" 1 (some 2) "2025-01-15" "second" "now").2.status = "updated" := by
  have h := c2_theorem [] "p1" "p2" "A-01" "R1" 1 none (some 2) "2025-01-15"
    "first" "second" "now" "now" rfl (by simp)
  exact ⟨h.1, h.2.2.1⟩

/-! ## scripts/generate_code_names.py

SYMBOL_SETS in source order; all_symbols is sorted(set(...)) — the
distinct symbols in ascending string order — realised by a first-occurrence
dedup followed by an insertion sort (the symbols are distinct, so any
stable realisation of sorted agrees with Python's). -/

def SYMBOL_SETS : List (String × List String) :=
  [("encryption",
    ["CIPHER", "ENCRYPT", "HASH", "TOKEN", "KEY", "SALT",
     "AES", "RSA", "TLS", "SSL", "PKI", "CERT"]),
   ("security",
    ["FIREWALL", "SHIELD", "GUARD", "SENTINEL", "BASTION", "FORTRESS",
     "AEGIS", "BARRIER", "DEFENSE", "PATROL", "WATCH", "VAULT"]),
   ("attack",
    ["BREACH", "EXPLOIT", "PAYLOAD", "VECTOR", "MALWARE", "PHISH",
     "TROJAN", "WORM", "ROOTKIT", "BACKDOOR", "INJECT", "OVERFLOW"]),
   ("network",
    ["PACKET", "ROUTER", "GATEWAY", "PROXY", "TUNNEL", "BRIDGE",
     "NODE", "MESH", "FABRIC", "LINK", "HUB", "SWITCH"]),
   ("data",
    ["STREAM", "BUFFER", "CACHE", "QUEUE", "STACK", "HEAP",
     "BLOCK", "CHUNK", "SHARD", "FRAME", "SEGMENT", "BYTE"]),
   ("protocol",
    ["HTTP", "TCP", "UDP", "DNS", "DHCP", "FTP",
     "SMTP", "SSH", "SNMP", "ICMP", "BGP", "OSPF"]),
   ("operation",
    ["SCAN", "PROBE", "TRACE", "QUERY", "FETCH", "PUSH",
     "PULL", "MERGE", "FORK", "CLONE", "PATCH", "BUILD"]),
   ("status",
    ["ACTIVE", "IDLE", "READY", "ARMED", "ALERT", "LOCKED",
     "SECURE", "OPEN", "CLOSED", "PENDING", "LIVE", "STANDBY"])]

/-- List membership as a boolean, structural. -/
def memStr (x : String) : List String → Bool
  | [] => false
  | y :: ys => x == y || memStr x ys

/-- Keeps the first occurrence of each string. -/
def dedupAux (seen : List String) : List String → List String
  | [] => []
  | x :: xs => if memStr x seen then dedupAux seen xs else x :: dedupAux (x :: seen) xs

/-- Lexicographic comparison of char lists by code point, Python string
order. -/
def strLeb : List Char → List Char → Bool
  | [], _ => true
  | _ :: _, [] => false
  | x :: xs, y :: ys =>
    if x.toNat < y.toNat then true
    else if y.toNat < x.toNat then false
    else strLeb xs ys

/-- Insertion into an ascending list. -/
def insertSorted (x : String) : List String → List String
  | [] => [x]
  | y :: ys => if strLeb x.data y.data then x :: y :: ys else y :: insertSorted x ys

/-- Ascending insertion sort, Python sorted on distinct strings. -/
def pySorted (l : List String) : List String := l.foldr insertSorted []

/-- all_symbols = sorted(set of the flattened symbol sets)). -/
def all_symbols : List String :=
  pySorted (dedupAux [] ((SYMBOL_SETS.map Prod.snd).flatten))

/-- generate_symbol_pool: when more episodes than symbols, symbol i is the
base at i mod the symbol count, carrying the numeric suffix i div the
symbol count when that reuse count is positive. -/
def generate_symbol_pool (seasons eps : Nat) : List String :=
  let total := seasons * eps
  if total > all_symbols.length then
    (List.range total).map (fun i =>
      let base := all_symbols.getD (i % all_symbols.length) ""
      let suffix := i / all_symbols.length
      if suffix > 0 then base ++ natStr suffix else base)
  else all_symbols.take total

/-- generate_code_name: P0D-S<season 2 digits>-E<episode 3 digits>-AXIS-<symbol>. -/
def generate_code_name (season episode : Nat) (symbol : String) : String :=
  "P0D-S" ++ pyFormat0 2 season ++ "-E" ++ pyFormat0 3 episode ++ "-AXIS-" ++ symbol

/-- The inner episode loop of generate_all_code_names, with its running
symbol_index. -/
def episodesLoop (symbols : List String) (season idx ep : Nat) :
    Nat → List (Nat × Nat × String × String)
  | 0 => []
  | n + 1 =>
    (season, ep, generate_code_name season ep (symbols.getD idx ""), symbols.getD idx "") ::
      episodesLoop symbols season (idx + 1) (ep + 1) n

/-- The outer season loop of generate_all_code_names. -/
def seasonsLoop (symbols : List String) (eps season idx : Nat) :
    Nat → List (Nat × Nat × String × String)
  | 0 => []
  | n + 1 =>
    episodesLoop symbols season idx 1 eps ++
      seasonsLoop symbols eps (season + 1) (idx + eps) n

/-- generate_all_code_names with randomize false. -/
def generate_all_code_names (seasons eps : Nat) : List (Nat × Nat × String × String) :=
  seasonsLoop (generate_symbol_pool seasons eps) eps 1 0 seasons

/-- Reads the season and episode numbers out of a code name by position:
the season digits sit at offsets 5-6 and the episode digits at 9-11
whenever the season is below 100 and the episode below 1000. -/
def codePair (s : String) : Nat × Nat :=
  (parseNum ((s.data.drop 5).take 2), parseNum ((s.data.drop 9).take 3))

theorem pad2_len : ∀ s < 100, (pyFormat0 2 s).data.length = 2 := by decide

theorem pad3_len : ∀ e < 1000, (pyFormat0 3 e).data.length = 3 := by decide

theorem pad2_parse : ∀ s < 100, parseNum (pyFormat0 2 s).data = s := by decide

theorem pad3_parse : ∀ e < 1000, parseNum (pyFormat0 3 e).data = e := by decide

theorem codePair_code_name (s e : Nat) (hs : s < 100) (he : e < 1000) (sym : String) :
    codePair (generate_code_name s e sym) = (s, e) := by
  have h2 : (pyFormat0 2 s).data.length = 2 := pad2_len s hs
  have h3 : (pyFormat0 3 e).data.length = 3 := pad3_len e he
  have hfull : (generate_code_name s e sym).data =
      "P0D-S".data ++ ((pyFormat0 2 s).data ++ ("-E".data ++
        ((pyFormat0 3 e).data ++ ("-AXIS-".data ++ sym.data)))) := by
    simp [generate_code_name, data_append, List.append_assoc]
  have hd5 : (generate_code_name s e sym).data.drop 5 =
      (pyFormat0 2 s).data ++ ("-E".data ++
        ((pyFormat0 3 e).data ++ ("-AXIS-".data ++ sym.data))) := by
    rw [hfull]
    exact List.drop_left' rfl
  have hd9 : (generate_code_name s e sym).data.drop 9 =
      (pyFormat0 3 e).data ++ ("-AXIS-".data ++ sym.data) := by
    have hregroup : (generate_code_name s e sym).data =
        ("P0D-S".data ++ ((pyFormat0 2 s).data ++ "-E".data)) ++
          ((pyFormat0 3 e).data ++ ("-AXIS-".data ++ sym.data)) := by
      rw [hfull]
      simp [List.append_assoc]
    rw [hregroup]
    exact List.drop_left' (by simp [h2])
  unfold codePair
  rw [hd5, hd9, List.take_left' h2, List.take_left' h3, pad2_parse s hs, pad3_parse e he]

/-- The season and episode components of the episode loop enumerate the
episode numbers in order. -/
theorem episodesLoop_pairs (symbols : List String) (season : Nat) :
    ∀ (n idx ep : Nat),
      (episodesLoop symbols season idx ep n).map (fun x => (x.1, x.2.1)) =
        (List.range' ep n).map (fun e => (season, e)) := by
  intro n
  induction n with
  | zero => intro idx ep; simp [episodesLoop]
  | succ m ih =>
    intro idx ep
    simp only [episodesLoop, List.map_cons, List.range']
    rw [ih (idx + 1) (ep + 1)]

/-- The season and episode components of the season loop enumerate the
season-episode pairs in order. -/
theorem seasonsLoop_pairs (symbols : List String) (eps : Nat) :
    ∀ (n season idx : Nat),
      (seasonsLoop symbols eps season idx n).map (fun x => (x.1, x.2.1)) =
        (List.range' season n).flatMap (fun sq =>
          (List.range' 1 eps).map (fun e => (sq, e))) := by
  intro n
  induction n with
  | zero => intro season idx; simp [seasonsLoop]
  | succ m ih =>
    intro season idx
    simp only [seasonsLoop, List.map_append, List.range', List.flatMap_cons]
    rw [episodesLoop_pairs symbols season eps idx 1, ih (season + 1) (idx + eps)]

/-- Every entry of the episode loop carries the code name generated from
its own season, episode and symbol, with the episode in the enumerated
range. -/
theorem episodesLoop_mem (symbols : List String) (season : Nat) :
    ∀ (n idx ep : Nat), ∀ x ∈ episodesLoop symbols season idx ep n,
      x.2.2.1 = generate_code_name x.1 x.2.1 x.2.2.2 ∧
        x.1 = season ∧ ep ≤ x.2.1 ∧ x.2.1 < ep + n := by
  intro n
  induction n with
  | zero => intro idx ep x hx; simp [episodesLoop] at hx
  | succ m ih =>
    intro idx ep x hx
    simp only [episodesLoop, List.mem_cons] at hx
    rcases hx with hx | hx
    · subst hx
      refine ⟨rfl, rfl, Nat.le_refl ep, ?_⟩
      show ep < ep + (m + 1)
      omega
    · obtain ⟨h1, h2, h3, h4⟩ := ih (idx + 1) (ep + 1) x hx
      exact ⟨h1, h2, by omega, by omega⟩

/-- Every entry of the season loop carries the code name generated from
its own season, episode and symbol, with season and episode in range. -/
theorem seasonsLoop_mem (symbols : List String) (eps : Nat) :
    ∀ (n season idx : Nat), ∀ x ∈ seasonsLoop symbols eps season idx n,
      x.2.2.1 = generate_code_name x.1 x.2.1 x.2.2.2 ∧
        season ≤ x.1 ∧ x.1 < season + n ∧ 1 ≤ x.2.1 ∧ x.2.1 ≤ eps := by
  intro n
  induction n with
  | zero => intro season idx x hx; simp [seasonsLoop] at hx
  | succ m ih =>
    intro season idx x hx
    simp only [seasonsLoop, List.mem_append] at hx
    rcases hx with hx | hx
    · obtain ⟨h1, h2, h3, h4⟩ := episodesLoop_mem symbols season eps idx 1 x hx
      exact ⟨h1, by omega, by omega, h3, by omega⟩
    · obtain ⟨h1, h2, h3, h4, h5⟩ := ih (season + 1) (idx + eps) x hx
      exact ⟨h1, by omega, by omega, h4, h5⟩

/-- No two of the generated code names coincide: reading the season and
episode digits back out of a code name is injective over the enumerated
ranges, and the season-episode pairs are pairwise distinct. -/
theorem code_names_nodup :
    ((generate_all_code_names 17 52).map (fun x => x.2.2.1)).Nodup := by
  apply List.Nodup.of_map codePair
  rw [List.map_map]
  have hcong : ∀ x ∈ generate_all_code_names 17 52,
      (codePair ∘ fun x => x.2.2.1) x = (fun x => (x.1, x.2.1)) x := by
    intro x hx
    obtain ⟨h1, h2, h3, h4, h5⟩ :=
      seasonsLoop_mem (generate_symbol_pool 17 52) 52 17 1 0 x hx
    simp only [Function.comp_apply]
    rw [h1]
    exact codePair_code_name x.1 x.2.1 (by omega) (by omega) _
  rw [List.map_congr_left hcong]
  show ((seasonsLoop (generate_symbol_pool 17 52) 52 1 0 17).map
      (fun x => (x.1, x.2.1))).Nodup
  rw [seasonsLoop_pairs]
  apply List.nodup_flatMap.mpr
  constructor
  · intro sq _
    apply List.Nodup.map
    · intro e1 e2 h
      exact congrArg Prod.snd h
    · exact List.nodup_range' 1 52
  · apply List.Pairwise.imp ?_ (List.pairwise_lt_range' 1 17)
    intro a b hab x hxa hxb
    obtain ⟨e1, _, he1⟩ := List.mem_map.mp hxa
    obtain ⟨e2, _, he2⟩ := List.mem_map.mp hxb
    have : a = b := by
      have ha : x.1 = a := by rw [← he1]
      have hb : x.1 = b := by rw [← he2]
      omega
    omega

/-- C8: with 17 seasons of 52 episodes there are more episodes than
distinct base symbols; in the generated symbol pool, the k-th reuse of the
base symbol at position j carries the incrementing numeric suffix k; and
no two of the 884 generated episode code names are identical. -/
theorem c8_theorem :
    all_symbols.length < 17 * 52 ∧
      (∀ j k : Nat, j < all_symbols.length → 0 < k →
        j + all_symbols.length * k < 17 * 52 →
        (generate_symbol_pool 17 52).getD (j + all_symbols.length * k) "" =
          all_symbols.getD j "" ++ natStr k) ∧
      ((generate_all_code_names 17 52).map (fun x => x.2.2.1)).Nodup := by
  refine ⟨by decide, ?_, code_names_nodup⟩
  intro j k hj hk hlt
  have hL : 0 < all_symbols.length := by omega
  unfold generate_symbol_pool
  rw [if_pos (by decide)]
  rw [List.getD_eq_getElem?_getD, List.getElem?_map, List.getElem?_range hlt]
  simp only [Option.map_some', Option.getD_some]
  rw [Nat.add_mul_mod_self_left, Nat.mod_eq_of_lt hj,
    Nat.add_mul_div_left j k hL, Nat.div_eq_of_lt hj]
  simp [hk]

/-- C8 (witness): the first reuse of the base symbol at position 0 of the
pool carries suffix 1. -/
theorem c8_witness :
    (generate_symbol_pool 17 52).getD (0 + all_symbols.length * 1) "" =
      all_symbols.getD 0 "" ++ natStr 1 :=
  c8_theorem.2.1 0 1 (by decide) (by decide) (by decide)

end P0D
